import Mathlib

/-!
Shallow embedding of `src/lambda_function.py`, a single AWS-Lambda-style CRUD
handler over a DynamoDB table of student records, together with proofs of the
behavioural claims about it.

Modelling conventions:
* JSON values are the inductive `JsonVal`; a parsed JSON object (a Python
  `dict`, insertion-ordered with unique keys) is an association list
  `Payload`.
* The incoming event's `body` string is modelled by its `json.loads` outcome
  (`ReqBody`): absent-or-empty bodies (which the code replaces by `"{}"`),
  bodies that fail to parse (carrying the exception message), and bodies that
  parse to a JSON object.  Bodies parsing to non-object JSON are outside every
  claim and are not modelled.
* The DynamoDB table is accessed through a record of operations `StoreOps`
  whose results live in `Except String` — an `Except.error msg` models a
  storage-layer exception with message `msg`, which the handler's
  `try/except Exception` turns into a 500 response.  `mapStore` is the
  concrete key-value model of the table used for the state-dependent claims;
  its key schema is a string `student_id` (the table is created with a string
  partition key), so operations keyed by a non-string value fail with a
  client-side validation exception, as the real store does.
* A response is the dictionary built by `_resp`: status code, the fixed
  header list, and the body, where `Option.none` stands for the empty string
  `""` and `some j` for `json.dumps j`.
-/

/-- JSON-compatible values: the payload field values the service stores and
returns (Python objects produced by `json.loads`).  Numbers are modelled as
integers; the service never inspects numeric values. -/
inductive JsonVal where
  | null
  | bool (b : Bool)
  | num (n : Int)
  | str (s : String)
  | arr (elems : List JsonVal)
  | obj (fields : List (String × JsonVal))

/-- A parsed JSON object: a Python dict as an insertion-ordered association
list from field name to value. -/
abbrev Payload := List (String × JsonVal)

/-- Python truthiness (`bool(v)`) of a parsed JSON value, as used by the
handler's `if not sid:` check on `payload.get("student_id")`. -/
def pyTruthy : JsonVal → Bool
  | .null => false
  | .bool b => b
  | .num n => n != 0
  | .str s => !s.isEmpty
  | .arr elems => !elems.isEmpty
  | .obj fields => !fields.isEmpty

/-- The `json.loads` outcome of the event's `body` string after the
`event.get("body") or "{}"` defaulting: the body was absent or empty (so
`"{}"` is parsed), it failed to parse (`json.loads` raised with message
`msg`), or it parsed to a JSON object with the given fields. -/
inductive ReqBody where
  | absent
  | malformed (msg : String)
  | jsonObj (fields : Payload)

/-- Running `json.loads(event.get("body") or "{}")`: produces the payload
dict, or raises the parse-error message into the surrounding `try`. -/
def parseBody : ReqBody → Except String Payload
  | .absent => .ok []
  | .malformed msg => .error msg
  | .jsonObj fields => .ok fields

/-- The inbound Lambda proxy event: `httpMethod` (may be absent),
`body` (modelled by its parse outcome), and `queryStringParameters`
(may be absent/None; API Gateway query parameter values are strings). -/
structure Event where
  httpMethod : Option String
  body : ReqBody
  queryStringParameters : Option (List (String × String))

/-- The HTTP-like response dictionary.  `body = none` models the empty
string `""` (the `json.dumps(body) if body is not None else ""` branch);
`body = some j` models `json.dumps(j)`. -/
structure Response where
  statusCode : Nat
  headers : List (String × String)
  body : Option JsonVal

/-- The fixed header dict every `_resp` response carries. -/
def corsHeaders : List (String × String) :=
  [("Content-Type", "application/json"),
   ("Access-Control-Allow-Origin", "*"),
   ("Access-Control-Allow-Headers", "Content-Type,Authorization"),
   ("Access-Control-Allow-Methods", "GET,POST,PUT,DELETE,OPTIONS")]

/-- The `_resp` helper of `lambda_function.py` (its Python default
`body=None` is written here as an explicit `none` argument; no call site in
the source actually uses the default). -/
def _resp (status : Nat) (body : Option JsonVal) : Response :=
  { statusCode := status, headers := corsHeaders, body := body }

/-- The JSON error body `{"error": msg}` every failure path returns. -/
def errorBody (msg : String) : Option JsonVal :=
  some (.obj [("error", .str msg)])

/-- The DynamoDB table operations the handler issues, over an abstract store
state `σ`.  Each operation may fail with a storage-layer exception message
(`boto3` raising), which the handler's `except Exception` catches.  Keys are
the JSON value the handler passes as `Key={"student_id": ...}`. -/
structure StoreOps (σ : Type) where
  put_item : σ → Payload → Except String σ
  get_item : σ → JsonVal → Except String (Option Payload)
  update_item : σ → JsonVal → List (String × JsonVal) → Except String (Payload × σ)
  delete_item : σ → JsonVal → Except String σ

/-- The suite of the `try:` statement inside `lambda_handler`: dispatch on
the already-extracted, non-OPTIONS method, with any raised exception
propagating to the caller as `Except.error`.  Each branch is a line-by-line
translation of the corresponding `if method == ...` branch of the source. -/
def tryBlock {σ : Type} (ops : StoreOps σ) (st : σ) (event : Event)
    (method : String) : Except String (Response × σ) :=
  if method = "POST" then do
    let payload ← parseBody event.body
    match payload.lookup "student_id" with
    | none =>
        pure (_resp 400 (errorBody "student_id is required"), st)
    | some _ => do
        let st1 ← ops.put_item st payload
        pure (_resp 200 (some (.obj [("message", .str "Student record created"),
                                     ("student", .obj payload)])), st1)
  else if method = "GET" then
    let params := event.queryStringParameters.getD []
    match params.lookup "student_id" with
    | none =>
        pure (_resp 400 (errorBody "student_id is required"), st)
    | some sid =>
        if sid = "" then
          pure (_resp 400 (errorBody "student_id is required"), st)
        else do
          let res ← ops.get_item st (.str sid)
          match res with
          | none => pure (_resp 404 (errorBody "not found"), st)
          | some item =>
              if item.isEmpty then
                pure (_resp 404 (errorBody "not found"), st)
              else
                pure (_resp 200 (some (.obj item)), st)
  else if method = "PUT" then do
    let payload ← parseBody event.body
    match payload.lookup "student_id" with
    | none =>
        pure (_resp 400 (errorBody "student_id is required"), st)
    | some sid =>
        if pyTruthy sid = false then
          pure (_resp 400 (errorBody "student_id is required"), st)
        else
          let fields := payload.filter (fun p => p.1 != "student_id")
          if fields.isEmpty then
            pure (_resp 400 (errorBody "no fields to update"), st)
          else do
            let res ← ops.update_item st sid fields
            pure (_resp 200 (some (.obj [("message", .str "Student record updated"),
                                         ("student", .obj res.1)])), res.2)
  else if method = "DELETE" then
    let params := event.queryStringParameters.getD []
    match params.lookup "student_id" with
    | none =>
        pure (_resp 400 (errorBody "student_id is required"), st)
    | some sid =>
        if sid = "" then
          pure (_resp 400 (errorBody "student_id is required"), st)
        else do
          let st1 ← ops.delete_item st (.str sid)
          pure (_resp 200 (some (.obj [("message",
                   .str ("Student " ++ sid ++ " deleted"))])), st1)
  else
    pure (_resp 405 (errorBody "method not allowed"), st)

/-- The Lambda entry point `lambda_handler(event, context)`: default the
method to `"GET"`, answer CORS preflight before the `try`, and wrap the try
suite, turning any raised exception into a 500 `{"error": str(e)}` response.
The store state is threaded explicitly; a failing operation returns no new
state, so the pre-call state is kept on the error path. -/
def lambda_handler {σ : Type} (ops : StoreOps σ) (st : σ) (event : Event) :
    Response × σ :=
  let method := event.httpMethod.getD "GET"
  if method = "OPTIONS" then
    (_resp 200 (some (.obj [])), st)
  else
    match tryBlock ops st event method with
    | .ok r => r
    | .error msg => (_resp 500 (errorBody msg), st)

/-- The concrete model of the DynamoDB table contents: a map from the string
`student_id` partition key to the stored item. -/
abbrev Store := List (String × Payload)

/-- Map update: bind `key` to `item`, replacing any previous binding. -/
def storePut (st : Store) (key : String) (item : Payload) : Store :=
  (key, item) :: st.filter (fun p => !(p.1 == key))

/-- SET one attribute on an item: overwrite the field if present, append it
otherwise (DynamoDB `SET #name = :value`). -/
def setAttr (item : Payload) (k : String) (v : JsonVal) : Payload :=
  if (item.lookup k).isSome then
    item.map (fun p => if p.1 = k then (k, v) else p)
  else
    item ++ [(k, v)]

/-- Apply a list of SET clauses in order (the `UpdateExpression` the PUT
branch builds from the non-key payload fields). -/
def applySets (item : Payload) (fields : List (String × JsonVal)) : Payload :=
  fields.foldl (fun acc p => setAttr acc p.1 p.2) item

/-- The exception-free paths of the concrete table semantics, with a string
partition key schema: `put_item` full-overwrites under the item's own
`student_id` value, `get_item` is exact-key lookup, `update_item` applies
the SET clauses to the existing item (creating one holding just the key
attribute when absent — DynamoDB's silent upsert) and returns the
post-update item (`ReturnValues="ALL_NEW"`), and `delete_item` removes the
key if present.  An operation keyed by a missing or non-string
`student_id` raises a client validation exception, as the typed table
does. -/
def mapStore : StoreOps Store where
  put_item st item :=
    match item.lookup "student_id" with
    | some (.str key) => .ok (storePut st key item)
    | some _ => .error "Type mismatch for key student_id"
    | none => .error "Missing the key student_id in the item"
  get_item st key :=
    match key with
    | .str k => .ok (st.lookup k)
    | _ => .error "Type mismatch for key student_id"
  update_item st key fields :=
    match key with
    | .str k =>
        let newItem := applySets ((st.lookup k).getD [("student_id", .str k)]) fields
        .ok (newItem, storePut st k newItem)
    | _ => .error "Type mismatch for key student_id"
  delete_item st key :=
    match key with
    | .str k => .ok (st.filter (fun p => !(p.1 == k)))
    | _ => .error "Type mismatch for key student_id"

/-- A store whose every operation raises with the given message, for
exercising the failure wrapper. -/
def failingStore (msg : String) : StoreOps Unit where
  put_item _ _ := .error msg
  get_item _ _ := .error msg
  update_item _ _ _ := .error msg
  delete_item _ _ := .error msg

/-- A canonical POST event with the given body and no query string. -/
def postEvent (b : ReqBody) : Event := ⟨some "POST", b, none⟩

/-- A canonical GET event with the given query parameters. -/
def getEvent (qs : List (String × String)) : Event := ⟨some "GET", .absent, some qs⟩

/-- A canonical PUT event with the given body and no query string. -/
def putEvent (b : ReqBody) : Event := ⟨some "PUT", b, none⟩

/-- A canonical DELETE event with the given query parameters. -/
def deleteEvent (qs : List (String × String)) : Event := ⟨some "DELETE", .absent, some qs⟩

/-- A canonical OPTIONS preflight event. -/
def optionsEvent : Event := ⟨some "OPTIONS", .absent, none⟩

section LookupLemmas

variable {α β : Type} [BEq α] [LawfulBEq α]

/-- Filtering out one key leaves lookups of every other key unchanged. -/
theorem lookup_filter_key_ne (l : List (α × β)) (k k' : α) (h : ¬ k' = k) :
    (l.filter (fun p => !(p.1 == k))).lookup k' = l.lookup k' := by
  induction l with
  | nil => simp
  | cons hd tl ih =>
      obtain ⟨a, b⟩ := hd
      by_cases hak : a = k
      · subst hak
        have hba : (k' == a) = false := beq_eq_false_iff_ne.mpr h
        simp [List.filter_cons, List.lookup_cons, hba, ih]
      · by_cases hk' : k' = a
        · subst hk'
          simp [List.filter_cons, List.lookup_cons, hak]
        · have hba : (k' == a) = false := beq_eq_false_iff_ne.mpr hk'
          simp [List.filter_cons, List.lookup_cons, hak, hba, ih]

/-- Filtering out a key removes it from the map. -/
theorem lookup_filter_key_self (l : List (α × β)) (k : α) :
    (l.filter (fun p => !(p.1 == k))).lookup k = none := by
  induction l with
  | nil => simp
  | cons hd tl ih =>
      obtain ⟨a, b⟩ := hd
      by_cases hak : a = k
      · subst hak; simp [List.filter_cons, ih]
      · have hba : (k == a) = false := beq_eq_false_iff_ne.mpr (Ne.symm hak)
        simp [List.filter_cons, List.lookup_cons, hak, hba, ih]

end LookupLemmas

/-- After `storePut` the key maps to the new item. -/
theorem storePut_lookup_self (st : Store) (k : String) (item : Payload) :
    (storePut st k item).lookup k = some item := by
  simp [storePut]

/-- A `storePut` leaves every other key's binding unchanged. -/
theorem storePut_lookup_ne (st : Store) (k k' : String) (item : Payload) (h : k' ≠ k) :
    (storePut st k item).lookup k' = st.lookup k' := by
  have hba : (k' == k) = false := beq_eq_false_iff_ne.mpr h
  simp only [storePut, List.lookup_cons, hba]
  exact lookup_filter_key_ne st k k' h

/-- Overwriting a present field in place makes its lookup the new value. -/
theorem lookup_map_set_self (item : Payload) (k : String) (v : JsonVal)
    (h : (item.lookup k).isSome = true) :
    (item.map (fun p => if p.1 = k then (k, v) else p)).lookup k = some v := by
  induction item with
  | nil => simp at h
  | cons hd tl ih =>
      obtain ⟨a, b⟩ := hd
      by_cases hak : a = k
      · subst hak
        simp [List.lookup_cons]
      · have hkb : (k == a) = false := beq_eq_false_iff_ne.mpr (Ne.symm hak)
        simp only [List.lookup_cons, hkb] at h
        simp only [List.map_cons, if_neg hak, List.lookup_cons, hkb]
        exact ih h

/-- Overwriting one field in place leaves every other field's lookup
unchanged. -/
theorem lookup_map_set_ne (item : Payload) (k f : String) (v : JsonVal) (h : f ≠ k) :
    (item.map (fun p => if p.1 = k then (k, v) else p)).lookup f = item.lookup f := by
  induction item with
  | nil => simp
  | cons hd tl ih =>
      obtain ⟨a, b⟩ := hd
      by_cases hak : a = k
      · subst hak
        have hfa : (f == a) = false := beq_eq_false_iff_ne.mpr h
        simp only [List.map_cons, eq_self_iff_true, if_true, ite_true, List.lookup_cons, hfa]
        exact ih
      · simp only [List.map_cons, if_neg hak, List.lookup_cons]
        cases hfa : f == a with
        | true => rfl
        | false => exact ih

/-- After a SET, the written attribute holds the written value. -/
theorem lookup_setAttr_self (item : Payload) (k : String) (v : JsonVal) :
    (setAttr item k v).lookup k = some v := by
  unfold setAttr
  by_cases h : (item.lookup k).isSome = true
  · rw [if_pos h]
    exact lookup_map_set_self item k v h
  · have hnone : item.lookup k = none := Option.not_isSome_iff_eq_none.mp h
    rw [if_neg h, List.lookup_append, hnone]
    simp

/-- A SET leaves every other attribute unchanged. -/
theorem lookup_setAttr_ne (item : Payload) (k f : String) (v : JsonVal) (h : f ≠ k) :
    (setAttr item k v).lookup f = item.lookup f := by
  unfold setAttr
  by_cases hany : (item.lookup k).isSome = true
  · rw [if_pos hany]
    exact lookup_map_set_ne item k f v h
  · have hfk : (f == k) = false := beq_eq_false_iff_ne.mpr h
    rw [if_neg hany, List.lookup_append]
    simp [List.lookup_cons, hfk]

/-- Field-level characterisation of applying the SET clauses: a field named
in the clauses ends at its clause value, any other field keeps its value in
the original item.  The clause keys are assumed distinct, as they are in the
handler (they come from one Python dict). -/
theorem lookup_applySets (r : Payload) (fields : List (String × JsonVal))
    (hnd : (fields.map Prod.fst).Nodup) (f : String) :
    (applySets r fields).lookup f = ((fields.lookup f).elim (r.lookup f) some) := by
  induction fields generalizing r with
  | nil => simp [applySets]
  | cons hd tl ih =>
      obtain ⟨k, v⟩ := hd
      simp only [List.map_cons, List.nodup_cons] at hnd
      obtain ⟨hk, hnd'⟩ := hnd
      have hstep : applySets r ((k, v) :: tl) = applySets (setAttr r k v) tl := by
        simp [applySets]
      rw [hstep, ih (setAttr r k v) hnd']
      by_cases hf : f = k
      · subst hf
        have htl : tl.lookup f = none := by
          rw [List.lookup_eq_none_iff]
          intro p hp
          have hne : f ≠ p.1 := fun hc => hk (hc ▸ List.mem_map_of_mem Prod.fst hp)
          simpa using hne
        simp [htl, List.lookup_cons, lookup_setAttr_self]
      · have hfk : (f == k) = false := beq_eq_false_iff_ne.mpr hf
        simp [List.lookup_cons, hfk, lookup_setAttr_ne r k f v hf]

section BranchLemmas

variable {σ : Type} (ops : StoreOps σ) (st : σ) (e : Event)

/-- OPTIONS short-circuits before the try block: fixed 200 response with the
empty-object body, the store untouched. -/
theorem handler_options (hm : e.httpMethod = some "OPTIONS") :
    lambda_handler ops st e = (_resp 200 (some (.obj [])), st) := by
  simp [lambda_handler, hm]

/-- An event with no `httpMethod` is processed exactly as a GET event. -/
theorem handler_default_get (b : ReqBody) (q : Option (List (String × String))) :
    lambda_handler ops st ⟨none, b, q⟩ = lambda_handler ops st ⟨some "GET", b, q⟩ := rfl

/-- A method outside the five known verbs falls through to the 405 response,
with no store access. -/
theorem handler_unknown_method (m : String) (hm : e.httpMethod = some m)
    (h1 : m ≠ "GET") (h2 : m ≠ "POST") (h3 : m ≠ "PUT") (h4 : m ≠ "DELETE")
    (h5 : m ≠ "OPTIONS") :
    lambda_handler ops st e = (_resp 405 (errorBody "method not allowed"), st) := by
  simp [lambda_handler, tryBlock, hm, h1, h2, h3, h4, h5, pure, Except.pure]

/-- A POST or PUT body that fails to parse raises out of `json.loads` into
the generic exception wrapper: 500 with the parse message, no store access. -/
theorem handler_malformed (msg : String) (hb : parseBody e.body = .error msg)
    (hm : e.httpMethod = some "POST" ∨ e.httpMethod = some "PUT") :
    lambda_handler ops st e = (_resp 500 (errorBody msg), st) := by
  rcases hm with hm | hm <;>
    simp [lambda_handler, tryBlock, hm, hb, Bind.bind, Except.bind,
      Functor.map, Except.map, pure, Except.pure]

/-- POST without a `student_id` key in the payload: 400, no store access. -/
theorem handler_post_missing_id (payload : Payload)
    (hm : e.httpMethod = some "POST") (hb : parseBody e.body = .ok payload)
    (hsid : payload.lookup "student_id" = none) :
    lambda_handler ops st e = (_resp 400 (errorBody "student_id is required"), st) := by
  simp [lambda_handler, tryBlock, hm, hb, hsid, Bind.bind, Except.bind,
    Functor.map, Except.map, pure, Except.pure]

/-- POST with a present `student_id` and a succeeding `put_item`: 200 echo
of the payload, the store advanced to the put result. -/
theorem handler_post_ok (payload : Payload) (sv : JsonVal) (st1 : σ)
    (hm : e.httpMethod = some "POST") (hb : parseBody e.body = .ok payload)
    (hsid : payload.lookup "student_id" = some sv)
    (hput : ops.put_item st payload = .ok st1) :
    lambda_handler ops st e =
      (_resp 200 (some (.obj [("message", .str "Student record created"),
                              ("student", .obj payload)])), st1) := by
  simp [lambda_handler, tryBlock, hm, hb, hsid, hput, Bind.bind, Except.bind,
    Functor.map, Except.map, pure, Except.pure]

/-- POST whose `put_item` raises: 500 with the storage message. -/
theorem handler_post_err (payload : Payload) (sv : JsonVal) (msg : String)
    (hm : e.httpMethod = some "POST") (hb : parseBody e.body = .ok payload)
    (hsid : payload.lookup "student_id" = some sv)
    (hput : ops.put_item st payload = .error msg) :
    lambda_handler ops st e = (_resp 500 (errorBody msg), st) := by
  simp [lambda_handler, tryBlock, hm, hb, hsid, hput, Bind.bind,
    Except.bind, Functor.map, Except.map, pure, Except.pure]

/-- GET with no `student_id` query parameter: 400, no store access. -/
theorem handler_get_missing_param
    (hm : e.httpMethod = some "GET")
    (hq : (e.queryStringParameters.getD []).lookup "student_id" = none) :
    lambda_handler ops st e = (_resp 400 (errorBody "student_id is required"), st) := by
  simp [lambda_handler, tryBlock, hm, hq, Bind.bind, Except.bind,
    Functor.map, Except.map, pure, Except.pure]

/-- GET with an empty-string `student_id` query parameter: the Python
falsiness check sends it to the same 400 as a missing parameter. -/
theorem handler_get_empty_param
    (hm : e.httpMethod = some "GET")
    (hq : (e.queryStringParameters.getD []).lookup "student_id" = some "") :
    lambda_handler ops st e = (_resp 400 (errorBody "student_id is required"), st) := by
  simp [lambda_handler, tryBlock, hm, hq, Bind.bind, Except.bind,
    Functor.map, Except.map, pure, Except.pure]

/-- GET whose lookup returns no item (or a falsy empty one): 404. -/
theorem handler_get_not_found (s : String) (res : Option Payload)
    (hm : e.httpMethod = some "GET")
    (hq : (e.queryStringParameters.getD []).lookup "student_id" = some s)
    (hs : s ≠ "")
    (hget : ops.get_item st (.str s) = .ok res)
    (hres : res = none ∨ res = some []) :
    lambda_handler ops st e = (_resp 404 (errorBody "not found"), st) := by
  rcases hres with hres | hres <;> subst hres <;>
    simp [lambda_handler, tryBlock, hm, hq, hs, hget, Bind.bind, Except.bind,
      Functor.map, Except.map, pure, Except.pure]

/-- GET whose lookup returns a non-empty item: 200 with the item verbatim
as the whole body. -/
theorem handler_get_found (s : String) (item : Payload)
    (hm : e.httpMethod = some "GET")
    (hq : (e.queryStringParameters.getD []).lookup "student_id" = some s)
    (hs : s ≠ "")
    (hget : ops.get_item st (.str s) = .ok (some item))
    (hne : item ≠ []) :
    lambda_handler ops st e = (_resp 200 (some (.obj item)), st) := by
  have hie : item.isEmpty = false := by
    cases item with
    | nil => exact absurd rfl hne
    | cons a l => rfl
  simp [lambda_handler, tryBlock, hm, hq, hs, hget, hie, Bind.bind, Except.bind,
    Functor.map, Except.map, pure, Except.pure]

/-- GET whose `get_item` raises: 500 with the storage message. -/
theorem handler_get_err (s : String) (msg : String)
    (hm : e.httpMethod = some "GET")
    (hq : (e.queryStringParameters.getD []).lookup "student_id" = some s)
    (hs : s ≠ "")
    (hget : ops.get_item st (.str s) = .error msg) :
    lambda_handler ops st e = (_resp 500 (errorBody msg), st) := by
  simp [lambda_handler, tryBlock, hm, hq, hs, hget, Bind.bind, Except.bind,
    Functor.map, Except.map, pure, Except.pure]

/-- PUT whose payload `student_id` is absent or Python-falsy: 400, no store
access. -/
theorem handler_put_missing_id (payload : Payload)
    (hm : e.httpMethod = some "PUT") (hb : parseBody e.body = .ok payload)
    (hsid : ∀ sv, payload.lookup "student_id" = some sv → pyTruthy sv = false) :
    lambda_handler ops st e = (_resp 400 (errorBody "student_id is required"), st) := by
  cases hl : payload.lookup "student_id" with
  | none =>
      simp [lambda_handler, tryBlock, hm, hb, hl, Bind.bind,
        Except.bind, Functor.map, Except.map, pure, Except.pure]
  | some sv =>
      have hf : pyTruthy sv = false := hsid sv hl
      simp [lambda_handler, tryBlock, hm, hb, hl, hf, Bind.bind,
        Except.bind, Functor.map, Except.map, pure, Except.pure]

/-- PUT with a truthy `student_id` but no other field: 400, no store
access. -/
theorem handler_put_no_fields (payload : Payload) (sv : JsonVal)
    (hm : e.httpMethod = some "PUT") (hb : parseBody e.body = .ok payload)
    (hsid : payload.lookup "student_id" = some sv)
    (htr : pyTruthy sv = true)
    (hfields : payload.filter (fun p => p.1 != "student_id") = []) :
    lambda_handler ops st e = (_resp 400 (errorBody "no fields to update"), st) := by
  simp [lambda_handler, tryBlock, hm, hb, hsid, htr, hfields,
    Bind.bind, Except.bind, Functor.map, Except.map, pure, Except.pure]

/-- PUT on the success path: 200 with the `ALL_NEW` attributes, the store
advanced to the update result. -/
theorem handler_put_ok (payload fields attrs : Payload) (sv : JsonVal) (st1 : σ)
    (hm : e.httpMethod = some "PUT") (hb : parseBody e.body = .ok payload)
    (hsid : payload.lookup "student_id" = some sv)
    (htr : pyTruthy sv = true)
    (hfields : payload.filter (fun p => p.1 != "student_id") = fields)
    (hne : fields ≠ [])
    (hupd : ops.update_item st sv fields = .ok (attrs, st1)) :
    lambda_handler ops st e =
      (_resp 200 (some (.obj [("message", .str "Student record updated"),
                              ("student", .obj attrs)])), st1) := by
  have hie : fields.isEmpty = false := by
    cases fields with
    | nil => exact absurd rfl hne
    | cons a l => rfl
  simp [lambda_handler, tryBlock, hm, hb, hsid, htr, hfields, hie, hupd,
    Bind.bind, Except.bind, Functor.map, Except.map, pure, Except.pure]

/-- PUT whose `update_item` raises: 500 with the storage message. -/
theorem handler_put_err (payload fields : Payload) (sv : JsonVal) (msg : String)
    (hm : e.httpMethod = some "PUT") (hb : parseBody e.body = .ok payload)
    (hsid : payload.lookup "student_id" = some sv)
    (htr : pyTruthy sv = true)
    (hfields : payload.filter (fun p => p.1 != "student_id") = fields)
    (hne : fields ≠ [])
    (hupd : ops.update_item st sv fields = .error msg) :
    lambda_handler ops st e = (_resp 500 (errorBody msg), st) := by
  have hie : fields.isEmpty = false := by
    cases fields with
    | nil => exact absurd rfl hne
    | cons a l => rfl
  simp [lambda_handler, tryBlock, hm, hb, hsid, htr, hfields, hie, hupd,
    Bind.bind, Except.bind, Functor.map, Except.map, pure, Except.pure]

/-- DELETE with no `student_id` query parameter: 400, no store access. -/
theorem handler_delete_missing_param
    (hm : e.httpMethod = some "DELETE")
    (hq : (e.queryStringParameters.getD []).lookup "student_id" = none) :
    lambda_handler ops st e = (_resp 400 (errorBody "student_id is required"), st) := by
  simp [lambda_handler, tryBlock, hm, hq, Bind.bind, Except.bind,
    Functor.map, Except.map, pure, Except.pure]

/-- DELETE with an empty-string `student_id` query parameter: 400 by the
Python falsiness check. -/
theorem handler_delete_empty_param
    (hm : e.httpMethod = some "DELETE")
    (hq : (e.queryStringParameters.getD []).lookup "student_id" = some "") :
    lambda_handler ops st e = (_resp 400 (errorBody "student_id is required"), st) := by
  simp [lambda_handler, tryBlock, hm, hq, Bind.bind, Except.bind,
    Functor.map, Except.map, pure, Except.pure]

/-- DELETE on the success path: 200 confirmation, the store advanced to the
delete result (whether or not the key was present). -/
theorem handler_delete_ok (s : String) (st1 : σ)
    (hm : e.httpMethod = some "DELETE")
    (hq : (e.queryStringParameters.getD []).lookup "student_id" = some s)
    (hs : s ≠ "")
    (hdel : ops.delete_item st (.str s) = .ok st1) :
    lambda_handler ops st e =
      (_resp 200 (some (.obj [("message", .str ("Student " ++ s ++ " deleted"))])), st1) := by
  simp [lambda_handler, tryBlock, hm, hq, hs, hdel, Bind.bind, Except.bind,
    Functor.map, Except.map, pure, Except.pure]

/-- DELETE whose `delete_item` raises: 500 with the storage message. -/
theorem handler_delete_err (s : String) (msg : String)
    (hm : e.httpMethod = some "DELETE")
    (hq : (e.queryStringParameters.getD []).lookup "student_id" = some s)
    (hs : s ≠ "")
    (hdel : ops.delete_item st (.str s) = .error msg) :
    lambda_handler ops st e = (_resp 500 (errorBody msg), st) := by
  simp [lambda_handler, tryBlock, hm, hq, hs, hdel, Bind.bind, Except.bind,
    Functor.map, Except.map, pure, Except.pure]

end BranchLemmas

/-- Running `put_item` on the concrete table with a string `student_id` present. -/
theorem mapStore_put (st : Store) (payload : Payload) (s : String)
    (hsid : payload.lookup "student_id" = some (.str s)) :
    mapStore.put_item st payload = .ok (storePut st s payload) := by
  simp [mapStore, hsid]

/-- Running `update_item` on the concrete table when the key holds a record. -/
theorem mapStore_update_existing (st : Store) (s : String) (r : Payload)
    (fields : List (String × JsonVal)) (hr : st.lookup s = some r) :
    mapStore.update_item st (.str s) fields =
      .ok (applySets r fields, storePut st s (applySets r fields)) := by
  simp [mapStore, hr]

/-- Claim C1, counterexample: for `s = ""` the claim fails.  The POST
`{"student_id": ""}` is accepted with 200 (the code checks only key
presence), but the subsequent GET with query parameter `student_id = ""`
returns 400 — not 200 with the stored record as the claim asserts. -/
theorem post_get_empty_id_counterexample :
    (lambda_handler mapStore []
        (postEvent (.jsonObj [("student_id", JsonVal.str "")]))).1.statusCode = 200 ∧
    (lambda_handler mapStore
        (lambda_handler mapStore []
          (postEvent (.jsonObj [("student_id", JsonVal.str "")]))).2
        (getEvent [("student_id", "")])).1.statusCode = 400 :=
  ⟨rfl, rfl⟩

/-- Claim C1 (amended: the shared `student_id` must be a non-empty string;
the code rejects an empty-string query parameter with 400, see the
counterexample): a POST whose payload carries `student_id = s` returns 200,
and a GET with `?student_id=s` on the resulting store returns 200 with the
stored record — exactly the submitted payload, hence containing at least
the submitted fields; and after a DELETE with `?student_id=s` on any store,
a GET with `?student_id=s` returns 404. -/
theorem post_get_delete_round_trip
    (payload : Payload) (s : String) (st : Store)
    (hs : s ≠ "")
    (hsid : payload.lookup "student_id" = some (.str s)) :
    (lambda_handler mapStore st (postEvent (.jsonObj payload))).1.statusCode = 200 ∧
    (lambda_handler mapStore
        (lambda_handler mapStore st (postEvent (.jsonObj payload))).2
        (getEvent [("student_id", s)])).1 = _resp 200 (some (.obj payload)) ∧
    (∀ st' : Store,
      (lambda_handler mapStore st' (deleteEvent [("student_id", s)])).1.statusCode = 200 ∧
      (lambda_handler mapStore
          (lambda_handler mapStore st' (deleteEvent [("student_id", s)])).2
          (getEvent [("student_id", s)])).1 = _resp 404 (errorBody "not found")) := by
  have hpayne : payload ≠ [] := by
    intro hnil
    rw [hnil] at hsid
    exact Option.noConfusion hsid
  have hpost := handler_post_ok mapStore st (postEvent (.jsonObj payload)) payload (.str s)
      (storePut st s payload) rfl rfl hsid (mapStore_put st payload s hsid)
  refine ⟨by rw [hpost]; rfl, ?_, ?_⟩
  · have hget := handler_get_found mapStore (storePut st s payload)
        (getEvent [("student_id", s)]) s payload rfl rfl hs
        (by simp [mapStore, storePut_lookup_self]) hpayne
    rw [hpost, hget]
  · intro st'
    have hdel := handler_delete_ok mapStore st' (deleteEvent [("student_id", s)]) s
        (st'.filter (fun p => !(p.1 == s))) rfl rfl hs rfl
    refine ⟨by rw [hdel]; rfl, ?_⟩
    have hget2 := handler_get_not_found mapStore (st'.filter (fun p => !(p.1 == s)))
        (getEvent [("student_id", s)]) s none rfl rfl hs
        (by simp [mapStore, lookup_filter_key_self]) (Or.inl rfl)
    rw [hdel, hget2]

/-- Claim C1 witness: the round trip at the concrete payload
`{"student_id": "s1", "name": "Ann"}` on the empty store. -/
theorem post_get_delete_round_trip_witness :
    (lambda_handler mapStore [] (postEvent (.jsonObj
        [("student_id", JsonVal.str "s1"), ("name", JsonVal.str "Ann")]))).1.statusCode = 200 ∧
    (lambda_handler mapStore
        (lambda_handler mapStore [] (postEvent (.jsonObj
          [("student_id", JsonVal.str "s1"), ("name", JsonVal.str "Ann")]))).2
        (getEvent [("student_id", "s1")])).1 =
      _resp 200 (some (.obj [("student_id", JsonVal.str "s1"), ("name", JsonVal.str "Ann")])) ∧
    (lambda_handler mapStore [] (deleteEvent [("student_id", "s1")])).1.statusCode = 200 := by
  have h := post_get_delete_round_trip
      [("student_id", JsonVal.str "s1"), ("name", JsonVal.str "Ann")] "s1" []
      (by decide) rfl
  exact ⟨h.1, h.2.1, (h.2.2 []).1⟩

/-- Claim C2, counterexample: the claim fails when the shared `student_id`
is Python-falsy.  The store holds a record under key `""`, the PUT body is
`{"student_id": "", "grade": "A"}` with the non-empty field set
`{grade}`, yet the handler answers 400 (the `if not sid:` truthiness
check), not the claimed 200 with the merged record. -/
theorem put_falsy_id_counterexample :
    (lambda_handler mapStore
        [("", [("student_id", JsonVal.str ""), ("name", JsonVal.str "Ann")])]
        (putEvent (.jsonObj [("student_id", JsonVal.str ""),
                             ("grade", JsonVal.str "A")]))).1.statusCode = 400 :=
  rfl

/-- Claim C2 (amended: the `student_id` must be truthy — here, a non-empty
string, matching the store's string key schema): a PUT whose payload holds
`student_id = s` and a non-empty list of non-key fields, against a store
holding `r` at key `s`, answers 200 carrying the full post-update record;
under `s` the store now holds exactly `r` with the supplied fields
overwritten (fields of `r` not supplied are unchanged), and every other
key's record is unchanged. -/
theorem put_attribute_merge
    (payload fields r : Payload) (s : String) (st : Store)
    (hnodup : (payload.map Prod.fst).Nodup)
    (hsid : payload.lookup "student_id" = some (.str s))
    (hs : s ≠ "")
    (hfields : payload.filter (fun p => p.1 != "student_id") = fields)
    (hne : fields ≠ [])
    (hr : st.lookup s = some r) :
    lambda_handler mapStore st (putEvent (.jsonObj payload)) =
      (_resp 200 (some (.obj [("message", .str "Student record updated"),
                              ("student", .obj (applySets r fields))])),
       storePut st s (applySets r fields)) ∧
    (storePut st s (applySets r fields)).lookup s = some (applySets r fields) ∧
    (∀ f, (applySets r fields).lookup f = ((fields.lookup f).elim (r.lookup f) some)) ∧
    (∀ k', k' ≠ s → (storePut st s (applySets r fields)).lookup k' = st.lookup k') := by
  have htr : pyTruthy (.str s) = true := by
    have hie : s.isEmpty = false := by
      cases hcase : s.isEmpty
      · rfl
      · exact absurd ((String.isEmpty_iff s).mp hcase) hs
    simp [pyTruthy, hie]
  have hfnd : (fields.map Prod.fst).Nodup := by
    rw [← hfields]
    exact List.Nodup.sublist (List.Sublist.map Prod.fst (List.filter_sublist payload)) hnodup
  refine ⟨?_, storePut_lookup_self st s (applySets r fields),
          fun f => lookup_applySets r fields hfnd f,
          fun k' hk => storePut_lookup_ne st s k' (applySets r fields) hk⟩
  exact handler_put_ok mapStore st (putEvent (.jsonObj payload)) payload fields
      (applySets r fields) (.str s) (storePut st s (applySets r fields))
      rfl rfl hsid htr hfields hne (mapStore_update_existing st s r fields hr)

/-- Claim C2 witness: PUT `{"student_id": "s1", "grade": "A"}` against a
store holding `{"student_id": "s1", "name": "Ann"}` at `"s1"`: the response
carries the merged record and the store holds it. -/
theorem put_attribute_merge_witness :
    lambda_handler mapStore
        [("s1", [("student_id", JsonVal.str "s1"), ("name", JsonVal.str "Ann")])]
        (putEvent (.jsonObj [("student_id", JsonVal.str "s1"),
                             ("grade", JsonVal.str "A")])) =
      (_resp 200 (some (.obj [("message", JsonVal.str "Student record updated"),
         ("student", JsonVal.obj [("student_id", JsonVal.str "s1"),
            ("name", JsonVal.str "Ann"), ("grade", JsonVal.str "A")])])),
       [("s1", [("student_id", JsonVal.str "s1"), ("name", JsonVal.str "Ann"),
                ("grade", JsonVal.str "A")])]) := by
  have h := (put_attribute_merge
      [("student_id", JsonVal.str "s1"), ("grade", JsonVal.str "A")]
      [("grade", JsonVal.str "A")]
      [("student_id", JsonVal.str "s1"), ("name", JsonVal.str "Ann")]
      "s1"
      [("s1", [("student_id", JsonVal.str "s1"), ("name", JsonVal.str "Ann")])]
      (by decide) rfl (by decide) rfl (List.cons_ne_nil _ _) rfl).1
  exact h

/-- Claim C3, counterexample: the `student_id` query parameter is present
(non-missing) with the value `""` and no record exists for that key, yet
the handler answers 400 — not the claimed 404 — because the Python
truthiness check treats the empty string as missing. -/
theorem get_empty_id_counterexample :
    (lambda_handler mapStore [] (getEvent [("student_id", "")])).1.statusCode = 400 :=
  rfl

/-- Claim C3 (amended: the query parameter must be a non-empty string, and
an existing record is non-empty — both records written by this service
always are, and the code sends an empty item to the 404 branch by the same
falsiness check): a GET with `?student_id=s` answers 404 when the store has
no record under `s`, and 200 with the stored record verbatim as the whole
body when it holds non-empty `r` under `s`; the store is untouched. -/
theorem get_exact_lookup
    (e : Event) (s : String) (st : Store)
    (hm : e.httpMethod = some "GET")
    (hq : (e.queryStringParameters.getD []).lookup "student_id" = some s)
    (hs : s ≠ "") :
    (st.lookup s = none →
      lambda_handler mapStore st e = (_resp 404 (errorBody "not found"), st)) ∧
    (∀ r : Payload, r ≠ [] → st.lookup s = some r →
      lambda_handler mapStore st e = (_resp 200 (some (.obj r)), st)) := by
  constructor
  · intro hnone
    exact handler_get_not_found mapStore st e s none hm hq hs
      (by simp [mapStore, hnone]) (Or.inl rfl)
  · intro r hr hsome
    exact handler_get_found mapStore st e s r hm hq hs (by simp [mapStore, hsome]) hr

/-- Claim C3 witness: a read miss on the empty store answers 404, and a
read hit returns the stored record verbatim with 200. -/
theorem get_exact_lookup_witness :
    lambda_handler mapStore [] (getEvent [("student_id", "zzz")]) =
      (_resp 404 (errorBody "not found"), []) ∧
    lambda_handler mapStore [("s1", [("student_id", JsonVal.str "s1")])]
        (getEvent [("student_id", "s1")]) =
      (_resp 200 (some (.obj [("student_id", JsonVal.str "s1")])),
       [("s1", [("student_id", JsonVal.str "s1")])]) := by
  constructor
  · exact (get_exact_lookup (getEvent [("student_id", "zzz")]) "zzz" []
      rfl rfl (by decide)).1 rfl
  · exact (get_exact_lookup (getEvent [("student_id", "s1")]) "s1"
      [("s1", [("student_id", JsonVal.str "s1")])] rfl rfl (by decide)).2
      [("student_id", JsonVal.str "s1")] (List.cons_ne_nil _ _) rfl

/-- Claim C4, counterexample: a POST whose payload maps `student_id` to the
empty string reaches the store write — the POST branch checks only key
presence — so the store ends up holding a record whose `student_id` is the
empty string, refuting the claimed invariant. -/
theorem post_empty_id_stored_counterexample :
    lambda_handler mapStore [] (postEvent (.jsonObj [("student_id", JsonVal.str "")])) =
      (_resp 200 (some (.obj [("message", JsonVal.str "Student record created"),
          ("student", JsonVal.obj [("student_id", JsonVal.str "")])])),
       [("", [("student_id", JsonVal.str "")])]) :=
  rfl

/-- Claim C4 (amended: only PUT enforces a truthy `student_id`; POST
guarantees just key presence, so an empty `student_id` can reach the store
write — see the counterexample): for every store backend, a PUT whose
payload `student_id` is absent or Python-falsy answers 400 with no store
access, and a POST whose payload lacks the `student_id` key answers 400
with no store access. -/
theorem write_guards {σ : Type} (ops : StoreOps σ) (st : σ) (e : Event)
    (payload : Payload) :
    (e.httpMethod = some "PUT" → parseBody e.body = .ok payload →
      (∀ sv, payload.lookup "student_id" = some sv → pyTruthy sv = false) →
      lambda_handler ops st e = (_resp 400 (errorBody "student_id is required"), st)) ∧
    (e.httpMethod = some "POST" → parseBody e.body = .ok payload →
      payload.lookup "student_id" = none →
      lambda_handler ops st e = (_resp 400 (errorBody "student_id is required"), st)) :=
  ⟨fun hm hb hsid => handler_put_missing_id ops st e payload hm hb hsid,
   fun hm hb hsid => handler_post_missing_id ops st e payload hm hb hsid⟩

/-- Claim C4 witness: PUT `{"student_id": ""}` is refused with 400 and the
store is untouched. -/
theorem write_guards_witness :
    lambda_handler mapStore [] (putEvent (.jsonObj [("student_id", JsonVal.str "")])) =
      (_resp 400 (errorBody "student_id is required"), []) := by
  refine (write_guards mapStore [] (putEvent (.jsonObj [("student_id", JsonVal.str "")]))
      [("student_id", JsonVal.str "")]).1 rfl rfl ?_
  intro sv h
  rw [show List.lookup "student_id" [("student_id", JsonVal.str "")] =
      some (JsonVal.str "") from rfl] at h
  injection h with h2
  subst h2
  rfl

/-- Claim C5, counterexample: the OPTIONS response body is the JSON text of
the empty object (the code returns `_resp(200, {})`, and `{}` is not
`None`, so `json.dumps` produces `"{}"`) — it is not the empty string the
claim asserts. -/
theorem options_body_counterexample :
    (lambda_handler mapStore [] optionsEvent).1.body = some (JsonVal.obj []) ∧
    (lambda_handler mapStore [] optionsEvent).1.body ≠ none :=
  ⟨rfl, fun h => Option.noConfusion h⟩

/-- Claim C5 (amended: the body is the empty JSON object `"{}"`, not the
empty string): every request whose `httpMethod` is OPTIONS answers 200 with
body `{}` and the full fixed CORS headers, for every store backend and
state, which is left untouched — the preflight branch runs before any store
access. -/
theorem options_preflight {σ : Type} (ops : StoreOps σ) (st : σ) (e : Event)
    (hm : e.httpMethod = some "OPTIONS") :
    lambda_handler ops st e = (_resp 200 (some (.obj [])), st) :=
  handler_options ops st e hm

/-- Claim C5 witness: the OPTIONS preflight on the concrete map store. -/
theorem options_preflight_witness :
    lambda_handler mapStore [] optionsEvent = (_resp 200 (some (.obj [])), []) :=
  options_preflight mapStore [] optionsEvent rfl

/-- Claim C6: missing required input always yields 400 with an error body
and no store access, for every store backend: a POST without `student_id`
in the payload, a GET or DELETE without the `student_id` query parameter,
a PUT without `student_id`, and a PUT with `student_id` but no other
field. -/
theorem missing_input_validation {σ : Type} (ops : StoreOps σ) (st : σ) (e : Event)
    (payload : Payload) :
    (e.httpMethod = some "POST" → parseBody e.body = .ok payload →
      payload.lookup "student_id" = none →
      lambda_handler ops st e = (_resp 400 (errorBody "student_id is required"), st)) ∧
    ((e.httpMethod = some "GET" ∨ e.httpMethod = some "DELETE") →
      (e.queryStringParameters.getD []).lookup "student_id" = none →
      lambda_handler ops st e = (_resp 400 (errorBody "student_id is required"), st)) ∧
    (e.httpMethod = some "PUT" → parseBody e.body = .ok payload →
      (payload.lookup "student_id" = none →
        lambda_handler ops st e = (_resp 400 (errorBody "student_id is required"), st)) ∧
      (∀ sv, payload.lookup "student_id" = some sv →
        payload.filter (fun p => p.1 != "student_id") = [] →
        ∃ msg, lambda_handler ops st e = (_resp 400 (errorBody msg), st))) := by
  refine ⟨fun hm hb hsid => handler_post_missing_id ops st e payload hm hb hsid, ?_, ?_⟩
  · rintro (hm | hm) hq
    · exact handler_get_missing_param ops st e hm hq
    · exact handler_delete_missing_param ops st e hm hq
  · intro hm hb
    constructor
    · intro hsid
      refine handler_put_missing_id ops st e payload hm hb ?_
      intro sv h
      rw [hsid] at h
      exact Option.noConfusion h
    · intro sv hsid hfe
      cases htr : pyTruthy sv with
      | true =>
          exact ⟨"no fields to update",
            handler_put_no_fields ops st e payload sv hm hb hsid htr hfe⟩
      | false =>
          refine ⟨"student_id is required", handler_put_missing_id ops st e payload hm hb ?_⟩
          intro sv' h
          rw [hsid] at h
          injection h with h2
          subst h2
          exact htr

/-- Claim C6 witness: a GET with no query parameters is refused with 400
and the store untouched. -/
theorem missing_input_validation_witness :
    lambda_handler mapStore [] (getEvent []) =
      (_resp 400 (errorBody "student_id is required"), []) :=
  (missing_input_validation mapStore [] (getEvent []) []).2.1 (Or.inl rfl) rfl

/-- Claim C7, counterexample: a DELETE whose `student_id` query parameter is
present but the empty string answers 400, not the claimed 200 confirmation
— the Python truthiness check treats it as missing. -/
theorem delete_empty_id_counterexample :
    (lambda_handler mapStore [] (deleteEvent [("student_id", "")])).1.statusCode = 400 :=
  rfl

/-- Claim C7 (amended: the query parameter must be a non-empty string): a
DELETE with `?student_id=s` always answers 200 with the confirmation
message `Student s deleted` — also when no record exists under `s` — the
record under `s` (if any) is removed, and every other key's record is
unchanged. -/
theorem delete_idempotent
    (e : Event) (s : String) (st : Store)
    (hm : e.httpMethod = some "DELETE")
    (hq : (e.queryStringParameters.getD []).lookup "student_id" = some s)
    (hs : s ≠ "") :
    lambda_handler mapStore st e =
      (_resp 200 (some (.obj [("message", .str ("Student " ++ s ++ " deleted"))])),
       st.filter (fun p => !(p.1 == s))) ∧
    (lambda_handler mapStore st e).2.lookup s = none ∧
    (∀ k', k' ≠ s → (lambda_handler mapStore st e).2.lookup k' = st.lookup k') := by
  have h1 := handler_delete_ok mapStore st e s (st.filter (fun p => !(p.1 == s))) hm hq hs rfl
  refine ⟨h1, ?_, ?_⟩
  · rw [h1]
    exact lookup_filter_key_self st s
  · intro k' hk
    rw [h1]
    exact lookup_filter_key_ne st s k' hk

/-- Claim C7 witness: deleting `s1` from a store holding it and from the
empty store both answer the same 200 confirmation. -/
theorem delete_idempotent_witness :
    lambda_handler mapStore [("s1", [("student_id", JsonVal.str "s1")])]
        (deleteEvent [("student_id", "s1")]) =
      (_resp 200 (some (.obj [("message", JsonVal.str ("Student " ++ "s1" ++ " deleted"))])),
       []) ∧
    lambda_handler mapStore [] (deleteEvent [("student_id", "s1")]) =
      (_resp 200 (some (.obj [("message", JsonVal.str ("Student " ++ "s1" ++ " deleted"))])),
       []) := by
  constructor
  · exact (delete_idempotent (deleteEvent [("student_id", "s1")]) "s1"
      [("s1", [("student_id", JsonVal.str "s1")])] rfl rfl (by decide)).1
  · exact (delete_idempotent (deleteEvent [("student_id", "s1")]) "s1" [] rfl rfl
      (by decide)).1

/-- Claim C8: any exception raised by a storage operation during POST, GET,
PUT, or DELETE handling is caught and surfaced as 500 with the body
`{"error": <the exception message>}`, with the store state as it was before
the failing call; the handler is a total function, so no error escapes it. -/
theorem storage_exception_to_500 {σ : Type} (ops : StoreOps σ) (st : σ) (e : Event)
    (payload fields : Payload) (sv : JsonVal) (s msg : String) :
    (e.httpMethod = some "POST" → parseBody e.body = .ok payload →
      payload.lookup "student_id" = some sv →
      ops.put_item st payload = .error msg →
      lambda_handler ops st e = (_resp 500 (errorBody msg), st)) ∧
    (e.httpMethod = some "GET" →
      (e.queryStringParameters.getD []).lookup "student_id" = some s → s ≠ "" →
      ops.get_item st (.str s) = .error msg →
      lambda_handler ops st e = (_resp 500 (errorBody msg), st)) ∧
    (e.httpMethod = some "PUT" → parseBody e.body = .ok payload →
      payload.lookup "student_id" = some sv → pyTruthy sv = true →
      payload.filter (fun p => p.1 != "student_id") = fields → fields ≠ [] →
      ops.update_item st sv fields = .error msg →
      lambda_handler ops st e = (_resp 500 (errorBody msg), st)) ∧
    (e.httpMethod = some "DELETE" →
      (e.queryStringParameters.getD []).lookup "student_id" = some s → s ≠ "" →
      ops.delete_item st (.str s) = .error msg →
      lambda_handler ops st e = (_resp 500 (errorBody msg), st)) :=
  ⟨fun hm hb hsid hput => handler_post_err ops st e payload sv msg hm hb hsid hput,
   fun hm hq hs hget => handler_get_err ops st e s msg hm hq hs hget,
   fun hm hb hsid htr hf hne hupd =>
     handler_put_err ops st e payload fields sv msg hm hb hsid htr hf hne hupd,
   fun hm hq hs hdel => handler_delete_err ops st e s msg hm hq hs hdel⟩

/-- Claim C8 witness: a GET against a store whose every operation raises
`boom` answers 500 with `{"error": "boom"}`. -/
theorem storage_exception_to_500_witness :
    lambda_handler (failingStore "boom") () (getEvent [("student_id", "s1")]) =
      (_resp 500 (errorBody "boom"), ()) :=
  (storage_exception_to_500 (failingStore "boom") () (getEvent [("student_id", "s1")])
      [] [] .null "s1" "boom").2.1 rfl rfl (by decide) rfl

/-- Claim C9: an event with no `httpMethod` is handled exactly as a GET
event, and an event whose method is none of the five known verbs answers
405 with an error body and no store access, for every store backend. -/
theorem method_dispatch {σ : Type} (ops : StoreOps σ) (st : σ) :
    (∀ (b : ReqBody) (q : Option (List (String × String))),
      lambda_handler ops st ⟨none, b, q⟩ = lambda_handler ops st ⟨some "GET", b, q⟩) ∧
    (∀ (e : Event) (m : String), e.httpMethod = some m →
      m ≠ "GET" → m ≠ "POST" → m ≠ "PUT" → m ≠ "DELETE" → m ≠ "OPTIONS" →
      lambda_handler ops st e = (_resp 405 (errorBody "method not allowed"), st)) :=
  ⟨fun b q => handler_default_get ops st b q,
   fun e m hm h1 h2 h3 h4 h5 => handler_unknown_method ops st e m hm h1 h2 h3 h4 h5⟩

/-- Claim C9 witness: `PATCH` is answered with 405, and a method-less event
is processed as a GET. -/
theorem method_dispatch_witness :
    lambda_handler mapStore [] (⟨some "PATCH", .absent, none⟩ : Event) =
      (_resp 405 (errorBody "method not allowed"), []) ∧
    lambda_handler mapStore [] (⟨none, .absent, some [("student_id", "s1")]⟩ : Event) =
      lambda_handler mapStore [] (⟨some "GET", .absent, some [("student_id", "s1")]⟩ : Event) :=
  ⟨(method_dispatch mapStore []).2 ⟨some "PATCH", .absent, none⟩ "PATCH" rfl
      (by decide) (by decide) (by decide) (by decide) (by decide),
   (method_dispatch mapStore []).1 .absent (some [("student_id", "s1")])⟩

/-- Claim C10: a POST or PUT whose body string fails to parse as JSON is
answered 500 with the parse-error message in `{"error": ...}` — the
`json.loads` failure is caught only by the generic exception wrapper, so it
is not a 400 validation error — and no store access occurs (the result
holds for every store backend with the state unchanged). -/
theorem malformed_body_500 {σ : Type} (ops : StoreOps σ) (st : σ) (e : Event) (msg : String)
    (hb : parseBody e.body = .error msg)
    (hm : e.httpMethod = some "POST" ∨ e.httpMethod = some "PUT") :
    lambda_handler ops st e = (_resp 500 (errorBody msg), st) :=
  handler_malformed ops st e msg hb hm

/-- Claim C10 witness: a POST whose body is the non-JSON text `hello`
(whose `json.loads` raises `Expecting value: line 1 column 1 (char 0)`)
answers 500 carrying that message. -/
theorem malformed_body_500_witness :
    lambda_handler mapStore []
        (postEvent (.malformed "Expecting value: line 1 column 1 (char 0)")) =
      (_resp 500 (errorBody "Expecting value: line 1 column 1 (char 0)"), []) :=
  malformed_body_500 mapStore []
    (postEvent (.malformed "Expecting value: line 1 column 1 (char 0)"))
    "Expecting value: line 1 column 1 (char 0)" rfl (Or.inl rfl)
